import Mathlib

/-!
Verification development for the 5nLib data-access facade.

Shallow embedding of the core of the repository:
  * `FnDatabaseAdapter` (src/modules/adaptors/FnDB.js): the data-access
    facade with cache-aside `get`, invalidating `set`, passthrough `fetch`,
    and lazy backend selection (`initialize`).
  * `FnRedisService` (src/modules/adaptors/RedisService.js): the cache
    store adapter over an ioredis cluster client.
  * `config.js`: environment-derived configuration constants.
  * `FnCache.js` / `index.js`: the library entry point's cache adaptor.

Modelling conventions:
  * JavaScript async functions that can throw become functions into
    `Except Err _`; external I/O (the redis cluster, the concrete storage
    backends, dynamic module import) is passed in as explicit oracles, and
    injected failures of a cluster operation are modelled by boolean flags.
  * The redis cluster state is a map from key to the stored entry.  The
    JSON round-trip (`JSON.stringify` on write, `JSON.parse` on read) is
    modelled as the identity on the flat string/number documents of the
    model, so entries store the document payload directly; an entry whose
    payload is the JS value `undefined` reads back as a miss.
  * `undefined` is modelled by `Option.none` throughout.
-/

/-- A JS primitive value usable as a document field or scalar key:
the model restricts numbers to integers. -/
inductive Scalar
  | str (s : String)
  | num (n : Int)
deriving DecidableEq, Repr

/-- JS template-literal / `.toString()` rendering of a scalar. -/
def Scalar.toJSString : Scalar → String
  | .str s => s
  | .num n => toString n

/-- JS truthiness of a scalar: the empty string and 0 are falsy. -/
def Scalar.truthy : Scalar → Bool
  | .str s => s ≠ ""
  | .num n => n ≠ 0

/-- A document: a flat JS object, an ordered list of (field, value) pairs
with distinct field names. -/
abbrev Document := List (String × Scalar)

/-- JS property access `obj[name]` on a flat object: the first binding of
`name`, or `undefined` (`none`). -/
def objIndex (fields : Document) (name : String) : Option Scalar :=
  (fields.find? (fun p => p.1 = name)).map (fun p => p.2)

/-- `obj[name]` filtered by JS truthiness, as in `obj && obj.f` guards:
`some v` iff the property exists and its value is truthy. -/
def objIndexTruthy (fields : Document) (name : String) : Option Scalar :=
  match objIndex fields name with
  | some v => if v.truthy then some v else none
  | none => none

/-- `Array.prototype.toString` = `join(",")`, used when a JS array is
coerced to a property name. -/
def joinComma : List String → String
  | [] => ""
  | [s] => s
  | s :: s2 :: rest => s ++ "," ++ joinComma (s2 :: rest)

/-- Rendering of a possibly-undefined scalar inside a template literal:
`undefined` prints as "undefined". -/
def jsInterp : Option Scalar → String
  | some v => v.toJSString
  | none => "undefined"

/-- The `key` argument of `FnDatabaseAdapter.get`: a string id, a number
id, or a composite primary-key mapping (`typeof key === 'object'`). -/
inductive JSKey
  | str (s : String)
  | num (n : Int)
  | obj (fields : Document)
deriving DecidableEq, Repr

/-- Error taxonomy of the embedded code paths. -/
inductive Err
  /-- an error thrown by a cache-cluster operation on the given key -/
  | cacheErr (key : String)
  /-- an error thrown by a storage-backend operation -/
  | storageErr (msg : String)
  /-- `new Error("Unsupported database type: " + DATABASE_TYPE)` thrown by
  `FnDatabaseAdapter.initialize` (the spec's ConfigurationError) -/
  | unsupportedType (t : String)
deriving DecidableEq, Repr

/-! ## config.js -/

namespace config

/-- `export const DATABASE_TYPE = process.env.DATABASE_TYPE || 'firestore'`
(config.js line 7), as a function of the environment variable
(`none` = unset; the empty string is falsy). -/
def DATABASE_TYPE_of (env : Option String) : String :=
  match env with
  | some s => if s = "" then "firestore" else s
  | none => "firestore"

/-- `export const DEFAULT_CACHE_EXPIRY = parseInt(env, 10) || 3600`
(config.js line 10), as a function of the parsed environment value
(`none` = unset or NaN; 0 is falsy). -/
def DEFAULT_CACHE_EXPIRY_of (env : Option Int) : Int :=
  match env with
  | some n => if n = 0 then 3600 else n
  | none => 3600

end config

/-! ## FnRedisService (RedisService.js) -/

/-- The state of the redis cluster visible through `FnRedisService`: each
key maps to `none` (absent / expired) or to the stored payload (the JS
value serialized at write time; `none` payload = `undefined`) together
with the TTL in seconds (`none` = the entry was written with no
expiration and never expires). -/
def RedisState : Type := String → Option (Option Document × Option Int)

/-- The empty cluster. -/
def emptyRedis : RedisState := fun _ => none

namespace FnRedisService

/-- `FnRedisService.get(key)` (RedisService.js lines 58-67):
`data ? JSON.parse(data) : null`, and an underlying cluster error is
re-thrown (`fail` injects such an error). -/
def get (fail : Bool) (st : RedisState) (key : String) :
    Except Err (Option Document) :=
  if fail then .error (.cacheErr key)
  else .ok (match st key with
    | some (some d, _) => some d
    | _ => none)

/-- `FnRedisService.set(key, data, expiresInSeconds)` (RedisService.js
lines 76-90): `if (expiresInSeconds)` — only a truthy (nonzero, defined)
expiry produces the `'EX'` variant; otherwise the entry is stored with no
expiration.  An underlying cluster error is re-thrown. -/
def set (fail : Bool) (st : RedisState) (key : String) (data : Option Document)
    (expiresInSeconds : Option Int) : Except Err RedisState :=
  if fail then .error (.cacheErr key)
  else
    let ttl : Option Int :=
      match expiresInSeconds with
      | some n => if n = 0 then none else some n
      | none => none
    .ok (fun k => if k = key then some (data, ttl) else st k)

end FnRedisService

/-! ## Backend capability interface and FnDatabaseAdapter (FnDB.js) -/

/-- The capability interface of a concrete storage backend
(FnMongo / FnFirestore / FnRedis-as-primary / FnDynamoDB), as called by
the facade.  `F` is the opaque backend-specific filter type of `fetch`.
The facade calls the backend's single `set` method at two different
arities; `setItem` is the 2-argument call `set(collection, data)` used for
dynamodb, `setKeyed` is the 3-argument call `set(collection, keyOrQuery,
data)` used for every other backend (which may resolve to `undefined`,
e.g. FnFirestore's `set` returns nothing). -/
structure Backend (F : Type) where
  get : String → JSKey → Except Err (Option Document)
  setItem : String → Document → Except Err (Option Document)
  setKeyed : String → JSKey → Document → Except Err (Option Document)
  fetch : String → F → Except Err (List Document)

/-- The module specifier imported by `FnDatabaseAdapter.initialize` for
each supported `DATABASE_TYPE`, `none` for an unsupported type
(FnDB.js lines 11-21). -/
def moduleFor (databaseType : String) : Option String :=
  if databaseType = "mongodb" then some "../database/MONGO/FnMongo.js"
  else if databaseType = "firestore" then some "../database/GCP/FnFirestore.js"
  else if databaseType = "redis" then some "../database/CACHE/FnRedis.js"
  else if databaseType = "dynamodb" then some "../database/AWS/FnDynamoDB.js"
  else none

namespace FnDatabaseAdapter

/-- `FnDatabaseAdapter.initialize` (FnDB.js lines 7-28): if `#dbInstance`
is unset, branch on `DATABASE_TYPE`, dynamically import the matching
module (`importModule` is the host loader; importing constructs the
backend as the module's side effect) and assign its default export; an
unsupported type throws before any import.  Returns the resolved backend
together with the list of modules imported by this call. -/
def initDb {F : Type} (databaseType : String)
    (importModule : String → Except Err (Backend F))
    (dbInstance : Option (Backend F)) :
    Except Err (Backend F × List String) :=
  match dbInstance with
  | some b => .ok (b, [])
  | none =>
      match moduleFor databaseType with
      | some m =>
          match importModule m with
          | .ok b => .ok (b, [m])
          | .error e => .error e
      | none => .error (.unsupportedType databaseType)

/-- The inline cache-key derivation of `FnDatabaseAdapter.get`
(FnDB.js lines 40-46), the spec's Key Deriver:
  * a string key yields `collection + ":" + key`;
  * an object key computes `keyName = Object.keys(key)` (an array) and
    evaluates `key[keyName]`, coercing the array to the comma-joined
    property name — so a multi-field mapping indexes an absent property
    and interpolates `undefined`;
  * any other `typeof` (in particular a number) matches neither branch
    and leaves `cacheKey` undefined. -/
def deriveCacheKey (collection : String) (key : JSKey) : Option String :=
  match key with
  | .str s => some (collection ++ ":" ++ s)
  | .obj fields =>
      some (collection ++ ":" ++
        jsInterp (objIndex fields (joinComma (fields.map (fun p => p.1)))))
  | .num _ => none

end FnDatabaseAdapter

/-- An observable Cache Store interaction issued by a facade call. -/
inductive CacheEvent
  /-- `redisService.get(key)` was issued -/
  | read (key : String)
  /-- `redisService.set(key, data, expiry)` was issued with these
  arguments (`expiry none` = the argument was `undefined`) -/
  | write (key : String) (data : Option Document) (expiry : Option Int)
deriving DecidableEq, Repr

/-- The caller-supplied `options` object of `FnDatabaseAdapter.get`, with
each property possibly absent (`none` = `undefined`). -/
structure JSOptions where
  useCache : Option Bool := none
  cacheExpiry : Option Int := none
deriving DecidableEq, Repr

/-- Outcome of a facade call: the returned or thrown value, the
`#dbInstance` field after the call, the redis cluster state after the
call, and the trace of Cache Store interactions the call issued. -/
structure CallResult (F : Type) (α : Type) where
  result : Except Err α
  dbInstance : Option (Backend F)
  redis : RedisState
  events : List CacheEvent

namespace FnDatabaseAdapter

/-- The destructuring `const { useCache, cacheExpiry } = options` combined
with the default parameter `options = { useCache: false, cacheExpiry:
DEFAULT_CACHE_EXPIRY }` (FnDB.js line 37): the default object applies
only when the `options` argument is omitted (or `undefined`) as a whole;
a caller-supplied object missing a property destructures that property to
`undefined`. -/
def effectiveOptions (defaultCacheExpiry : Int) (options : Option JSOptions) :
    Option Bool × Option Int :=
  match options with
  | none => (some false, some defaultCacheExpiry)
  | some o => (o.useCache, o.cacheExpiry)

/-- The backend phase of `FnDatabaseAdapter.get` (FnDB.js lines 57-65),
reached on a cache miss or when the cache is not consulted: resolve the
backend, call its `get`, and `if (doc && useCache && cacheKey)` write the
document through `redisService.set` with the destructured `cacheExpiry`.
Any thrown error is re-thrown by the surrounding catch (lines 66-69). -/
def getBackendPhase {F : Type} (databaseType : String)
    (importModule : String → Except Err (Backend F))
    (cacheSetFails : Bool)
    (dbInstance : Option (Backend F)) (redis : RedisState)
    (collection : String) (key : JSKey)
    (useCache : Option Bool) (cacheExpiry : Option Int)
    (cacheKey : Option String) (events : List CacheEvent) :
    CallResult F (Option Document) :=
  match initDb databaseType importModule dbInstance with
  | .error e => ⟨.error e, dbInstance, redis, events⟩
  | .ok (b, _) =>
      match b.get collection key with
      | .error e => ⟨.error e, some b, redis, events⟩
      | .ok none => ⟨.ok none, some b, redis, events⟩
      | .ok (some doc) =>
          match cacheKey, useCache with
          | some ck, some true =>
              if ck = "" then ⟨.ok (some doc), some b, redis, events⟩
              else
                match FnRedisService.set cacheSetFails redis ck (some doc) cacheExpiry with
                | .error e =>
                    ⟨.error e, some b, redis, events ++ [.write ck (some doc) cacheExpiry]⟩
                | .ok redis2 =>
                    ⟨.ok (some doc), some b, redis2,
                      events ++ [.write ck (some doc) cacheExpiry]⟩
          | _, _ => ⟨.ok (some doc), some b, redis, events⟩

/-- `FnDatabaseAdapter.get(collection, key, options)` (FnDB.js lines
37-70).  Derive the cache key; `if (useCache && cacheKey)` consult the
Cache Store — a truthy cached value is returned immediately, a miss falls
through to the backend, and a thrown cache error is re-thrown by the
catch (lines 66-69); otherwise resolve the backend, read the document and
best-case populate the cache.  `cacheGetFails` / `cacheSetFails` inject a
cluster failure into the respective `redisService` call. -/
def get {F : Type} (databaseType : String) (defaultCacheExpiry : Int)
    (importModule : String → Except Err (Backend F))
    (cacheGetFails cacheSetFails : Bool)
    (dbInstance : Option (Backend F)) (redis : RedisState)
    (collection : String) (key : JSKey) (options : Option JSOptions) :
    CallResult F (Option Document) :=
  let (useCache, cacheExpiry) := effectiveOptions defaultCacheExpiry options
  let cacheKey := deriveCacheKey collection key
  match cacheKey, useCache with
  | some ck, some true =>
      if ck = "" then
        getBackendPhase databaseType importModule cacheSetFails dbInstance redis
          collection key useCache cacheExpiry cacheKey []
      else
        match FnRedisService.get cacheGetFails redis ck with
        | .error e => ⟨.error e, dbInstance, redis, [.read ck]⟩
        | .ok (some cachedData) =>
            ⟨.ok (some cachedData), dbInstance, redis, [.read ck]⟩
        | .ok none =>
            getBackendPhase databaseType importModule cacheSetFails dbInstance redis
              collection key useCache cacheExpiry cacheKey [.read ck]
  | _, _ =>
      getBackendPhase databaseType importModule cacheSetFails dbInstance redis
        collection key useCache cacheExpiry cacheKey []

/-- The post-write cache-key derivation of the non-dynamodb branch of
`FnDatabaseAdapter.set` (FnDB.js lines 92-98):
`updatedDoc._id` (via `.toString()`), else `updatedDoc.id`, else a string
`keyOrQuery`, each guarded by JS truthiness; otherwise `cacheKey` stays
undefined. -/
def derivePostWriteKey (collection : String) (keyOrQuery : JSKey)
    (updatedDoc : Option Document) : Option String :=
  match updatedDoc.bind (fun d => objIndexTruthy d "_id") with
  | some v => some (collection ++ ":" ++ v.toJSString)
  | none =>
      match updatedDoc.bind (fun d => objIndexTruthy d "id") with
      | some v => some (collection ++ ":" ++ v.toJSString)
      | none =>
          match keyOrQuery with
          | .str s => some (collection ++ ":" ++ s)
          | _ => none

/-- The post-write cache key of the dynamodb branch (FnDB.js lines
88-89): `keyName = Object.keys(data)`; `` `${collection}:${data[keyName]}` ``
— the same array-as-property-name indexing as in `deriveCacheKey`. -/
def deriveDynamoWriteKey (collection : String) (data : Document) : String :=
  collection ++ ":" ++ jsInterp (objIndex data (joinComma (data.map (fun p => p.1))))

/-- The cache-refresh tail of `FnDatabaseAdapter.set` (FnDB.js lines
101-107): `if (cacheKey)` write `updatedDoc` through `redisService.set`
with `DEFAULT_CACHE_EXPIRY`; a thrown cache error is re-thrown by the
catch (lines 108-111), failing the whole `set` call. -/
def setCacheRefresh {F : Type} (defaultCacheExpiry : Int) (cacheSetFails : Bool)
    (b : Backend F) (redis : RedisState)
    (updatedDoc : Option Document) (cacheKey : Option String) :
    CallResult F (Option Document) :=
  match cacheKey with
  | some ck =>
      if ck = "" then ⟨.ok updatedDoc, some b, redis, []⟩
      else
        match FnRedisService.set cacheSetFails redis ck updatedDoc
            (some defaultCacheExpiry) with
        | .error e =>
            ⟨.error e, some b, redis, [.write ck updatedDoc (some defaultCacheExpiry)]⟩
        | .ok redis2 =>
            ⟨.ok updatedDoc, some b, redis2,
              [.write ck updatedDoc (some defaultCacheExpiry)]⟩
  | none => ⟨.ok updatedDoc, some b, redis, []⟩

/-- `FnDatabaseAdapter.set(collection, keyOrQuery, data)` (FnDB.js lines
79-112): resolve the backend; for dynamodb call `set(collection, data)`
and derive the key from `data` itself, otherwise call
`set(collection, keyOrQuery, data)` and derive the key from the updated
document or a string `keyOrQuery`; then refresh the cache at that key
with the process-wide default expiry.  Every thrown error — backend or
cache — is re-thrown to the caller. -/
def set {F : Type} (databaseType : String) (defaultCacheExpiry : Int)
    (importModule : String → Except Err (Backend F))
    (cacheSetFails : Bool)
    (dbInstance : Option (Backend F)) (redis : RedisState)
    (collection : String) (keyOrQuery : JSKey) (data : Document) :
    CallResult F (Option Document) :=
  match initDb databaseType importModule dbInstance with
  | .error e => ⟨.error e, dbInstance, redis, []⟩
  | .ok (b, _) =>
      if databaseType = "dynamodb" then
        match b.setItem collection data with
        | .error e => ⟨.error e, some b, redis, []⟩
        | .ok updatedDoc =>
            setCacheRefresh defaultCacheExpiry cacheSetFails b redis updatedDoc
              (some (deriveDynamoWriteKey collection data))
      else
        match b.setKeyed collection keyOrQuery data with
        | .error e => ⟨.error e, some b, redis, []⟩
        | .ok updatedDoc =>
            setCacheRefresh defaultCacheExpiry cacheSetFails b redis updatedDoc
              (derivePostWriteKey collection keyOrQuery updatedDoc)

/-- `FnDatabaseAdapter.fetch(collection, filters)` (FnDB.js lines
120-123): resolve the backend and return
`this.#dbInstance.fetch(collection, filters)` — the filters object is
passed through untouched and no Cache Store call is issued. -/
def fetch {F : Type} (databaseType : String)
    (importModule : String → Except Err (Backend F))
    (dbInstance : Option (Backend F)) (redis : RedisState)
    (collection : String) (filters : F) :
    CallResult F (List Document) :=
  match initDb databaseType importModule dbInstance with
  | .error e => ⟨.error e, dbInstance, redis, []⟩
  | .ok (b, _) => ⟨b.fetch collection filters, some b, redis, []⟩

end FnDatabaseAdapter

/-! ## FnCache.js and the library entry point (src/index.js) -/

namespace FnCacheModule

/-- A JS value as far as the FnCache constructor inspects one. -/
inductive JsVal
  | undefinedVal
  | str (s : String)
  | other
deriving DecidableEq, Repr

/-- An error aborting the evaluation of module FnCache.js. -/
inductive ModErr
  /-- ES-module link error: `import fnConfig from './config.js'` requests
  a default export the module does not provide (a SyntaxError raised
  during instantiation, before any statement of FnCache.js runs) -/
  | missingDefaultExport (moduleName : String)
  /-- evaluation reached an identifier with no binding in scope -/
  | referenceError (ident : String)
deriving DecidableEq, Repr

/-- The named exports of src/modules/adaptors/config.js (lines 7-12);
the module has no default export. -/
def configJsNamedExports : List String :=
  ["DATABASE_TYPE", "DEFAULT_CACHE_EXPIRY", "serviceAccountPath"]

/-- Whether config.js has a default export (it does not: its three
exports are all named `const` exports). -/
def configJsHasDefaultExport : Bool := false

/-- The identifiers bound in the module scope of FnCache.js: the
default-import binding `fnConfig` (line 2), the class declaration
`FnCache` (line 5) and the top-level `const FnCacheInstance` (line 35).
`FnRedis` is not among them — nothing binds it in this module. -/
def fnCacheModuleBindings : List String := ["fnConfig", "FnCache", "FnCacheInstance"]

/-- Property access on the would-be `fnConfig` namespace object under a
lenient (CommonJS-interop style) reading of the default import: named
exports become properties, everything else — in particular `cache` — is
`undefined`. -/
def configInteropProp (p : String) : JsVal :=
  if configJsNamedExports.contains p then .other else .undefinedVal

/-- The body of `new FnCache()` (FnCache.js lines 7-17) on the first
construction (`FnCache.instance` is unset, so the early return is not
taken): read `fnConfig.cache`; if it equals `'redis'` assign the pending
dynamic import to `#cache` (a module-scope no-op either way); then
execute `FnRedis.instance = this`, which resolves the identifier
`FnRedis` — unbound in this module — and so throws a ReferenceError. -/
def constructorRun (fnConfigProp : String → JsVal) : Except ModErr Unit :=
  let _ := fnConfigProp "cache" = JsVal.str "redis"
  if fnCacheModuleBindings.contains "FnRedis" then
    .ok ()
  else
    .error (.referenceError "FnRedis")

/-- `FnCache.getInstance()` (FnCache.js lines 18-23) at module load:
`FnCache.instance` is unset, so it evaluates `new FnCache()`. -/
def getInstanceRun (fnConfigProp : String → JsVal) : Except ModErr Unit :=
  constructorRun fnConfigProp

/-- Evaluation of module FnCache.js under standard ES-module semantics,
as triggered by `import FnCacheAdaptor from './modules/adaptors/FnCache.js'`
in src/index.js line 18: linking the default import of config.js fails
(config.js exports no default), so the module body — including the
module-load call `FnCache.getInstance()` on line 35 — never runs. -/
def moduleEvalStrict : Except ModErr Unit :=
  if configJsHasDefaultExport then getInstanceRun configInteropProp
  else .error (.missingDefaultExport "./config.js")

/-- Evaluation of the FnCache.js module body under a lenient loader that
resolves the default import of config.js to its exports namespace object:
the body runs and `FnCache.getInstance()` executes the constructor. -/
def moduleEvalLenient : Except ModErr Unit :=
  getInstanceRun configInteropProp

end FnCacheModule

/-! ## Concrete fixtures used by witnesses and counterexamples -/

/-- A sample stored document. -/
def testDoc : Document := [("id", .str "u1"), ("name", .str "A")]

/-- A backend whose operations all succeed: `get` finds `testDoc`, `set`
echoes the written data (resp. `testDoc` for the keyed arity), `fetch`
returns a one-element list. -/
def testBackend : Backend Unit where
  get := fun _ _ => .ok (some testDoc)
  setItem := fun _ data => .ok (some data)
  setKeyed := fun _ _ _ => .ok (some testDoc)
  fetch := fun _ _ => .ok [testDoc]

/-- A module loader that yields `testBackend` for every specifier. -/
def testImport : String → Except Err (Backend Unit) := fun _ => .ok testBackend

/-- A module loader that fails every import. -/
def failingImport : String → Except Err (Backend Unit) :=
  fun m => .error (.storageErr m)

/-- A redis state holding exactly one never-expiring entry. -/
def singletonRedis (key : String) (d : Document) : RedisState :=
  fun k => if k = key then some (some d, none) else none

example : FnDatabaseAdapter.deriveCacheKey "users" (.str "u1") = some "users:u1" := by decide
example : FnDatabaseAdapter.deriveCacheKey "users" (.num 42) = none := by decide
example : FnDatabaseAdapter.deriveCacheKey "users"
    (.obj [("id", .str "u1"), ("region", .str "eu")]) = some "users:undefined" := by decide
example : FnDatabaseAdapter.deriveCacheKey "users"
    (.obj [("id", .str "u1")]) = some "users:u1" := by decide

/-! ## Helper lemmas -/

/-- Every derived cache key contains the `:` separator, so it is nonempty
and in particular truthy as a JS string. -/
theorem colon_append_ne_empty (a b : String) : a ++ ":" ++ b ≠ "" := by
  intro h
  have h2 := congrArg String.length h
  simp [String.length_append] at h2
  exact absurd h2.1.2 (by decide)

/-- Every key produced by the post-write derivation is of the shape
`collection ++ ":" ++ s` and hence nonempty. -/
theorem derivePostWriteKey_ne_empty (collection : String) (q : JSKey)
    (ud : Option Document) (ck : String)
    (h : FnDatabaseAdapter.derivePostWriteKey collection q ud = some ck) :
    ck ≠ "" := by
  unfold FnDatabaseAdapter.derivePostWriteKey at h
  repeat' split at h
  all_goals first
    | exact Option.noConfusion h
    | (injection h with h2; exact h2 ▸ colon_append_ne_empty _ _)

/-! ## Claim theorems -/

/-- C1 counterexample.  The claim asserts that for `get` with
`options.useCache` true a Cache Store lookup failure degrades to a cache
miss and is never raised to the caller.  At this concrete input the
backend is ready and would return `testDoc`, yet an injected cache-lookup
failure makes the whole `get` throw the cache error: `FnRedisService.get`
re-throws its cluster error and the facade's catch block re-throws it to
the caller. -/
theorem C1_counterexample :
    (FnDatabaseAdapter.get "firestore" 3600 testImport true false (some testBackend)
        emptyRedis "users" (.str "u1") (some { useCache := some true })).result
      = .error (.cacheErr "users:u1") := rfl

/-- C1 (amended): with `options.useCache` true, a cache *miss* falls
through to the Storage Backend and returns the backend's document, but a
cache-*lookup failure* does not degrade to a miss: the cache error is
re-thrown to the caller and the backend document is not returned. -/
theorem C1_cache_miss_falls_through_but_failure_raises {F : Type} (b : Backend F)
    (imp : String → Except Err (Backend F)) (st : RedisState)
    (collection k : String) (d : Document)
    (hmiss : st (collection ++ ":" ++ k) = none)
    (hget : b.get collection (.str k) = .ok (some d)) :
    (FnDatabaseAdapter.get "firestore" 3600 imp false false (some b) st
        collection (.str k) (some { useCache := some true })).result = .ok (some d)
    ∧ (FnDatabaseAdapter.get "firestore" 3600 imp true false (some b) st
        collection (.str k) (some { useCache := some true })).result
      = .error (.cacheErr (collection ++ ":" ++ k)) := by
  have hne := colon_append_ne_empty collection k
  constructor <;>
    simp [FnDatabaseAdapter.get, FnDatabaseAdapter.deriveCacheKey,
      FnDatabaseAdapter.effectiveOptions, FnDatabaseAdapter.getBackendPhase,
      FnDatabaseAdapter.initDb, FnRedisService.get, FnRedisService.set,
      hne, hmiss, hget]

/-- Witness for C1: the amended theorem applied at the concrete fixture. -/
theorem C1_witness :
    (FnDatabaseAdapter.get "firestore" 3600 testImport false false (some testBackend)
        emptyRedis "users" (.str "u1") (some { useCache := some true })).result
      = .ok (some testDoc)
    ∧ (FnDatabaseAdapter.get "firestore" 3600 testImport true false (some testBackend)
        emptyRedis "users" (.str "u1") (some { useCache := some true })).result
      = .error (.cacheErr ("users" ++ ":" ++ "u1")) :=
  C1_cache_miss_falls_through_but_failure_raises testBackend testImport emptyRedis
    "users" "u1" testDoc rfl rfl

/-- C2 counterexample.  The claim asserts a cache-refresh failure does
not fail the write.  At this concrete input the backend `set` succeeds
and returns the updated document, yet an injected cache-refresh failure
makes the whole `set` call throw the cache error instead of returning the
document: `redisService.set` re-throws and the facade's catch re-throws. -/
theorem C2_counterexample :
    (FnDatabaseAdapter.set "firestore" 3600 testImport true (some testBackend)
        emptyRedis "users" (.str "u1") testDoc).result
      = .error (.cacheErr "users:u1") := rfl

/-- C2 (amended): after a successful backend write, whenever a post-write
cache key is derivable the facade refreshes the Cache Store at that key
with the updated document and the process-wide default expiry (not a
per-read TTL) — but the refresh is not failure-tolerant: a cache-refresh
error propagates and the `set` call fails instead of returning the
updated document. -/
theorem C2_refresh_uses_default_ttl_but_failure_fails_write {F : Type} (b : Backend F)
    (imp : String → Except Err (Backend F)) (st : RedisState) (dce : Int)
    (collection : String) (q : JSKey) (data d : Document) (ck : String)
    (hset : b.setKeyed collection q data = .ok (some d))
    (hck : FnDatabaseAdapter.derivePostWriteKey collection q (some d) = some ck) :
    (FnDatabaseAdapter.set "firestore" dce imp false (some b) st collection q data).result
      = .ok (some d)
    ∧ (FnDatabaseAdapter.set "firestore" dce imp false (some b) st collection q data).events
      = [.write ck (some d) (some dce)]
    ∧ (FnDatabaseAdapter.set "firestore" dce imp true (some b) st collection q data).result
      = .error (.cacheErr ck) := by
  have hne := derivePostWriteKey_ne_empty collection q (some d) ck hck
  refine ⟨?_, ?_, ?_⟩ <;>
    simp [FnDatabaseAdapter.set, FnDatabaseAdapter.initDb,
      FnDatabaseAdapter.setCacheRefresh, FnRedisService.set, hset, hck, hne]

/-- Witness for C2: the amended theorem applied at the concrete fixture. -/
theorem C2_witness :
    (FnDatabaseAdapter.set "firestore" 3600 testImport false (some testBackend)
        emptyRedis "users" (.str "u1") testDoc).result = .ok (some testDoc)
    ∧ (FnDatabaseAdapter.set "firestore" 3600 testImport false (some testBackend)
        emptyRedis "users" (.str "u1") testDoc).events
      = [.write "users:u1" (some testDoc) (some 3600)]
    ∧ (FnDatabaseAdapter.set "firestore" 3600 testImport true (some testBackend)
        emptyRedis "users" (.str "u1") testDoc).result
      = .error (.cacheErr "users:u1") :=
  C2_refresh_uses_default_ttl_but_failure_fails_write testBackend testImport emptyRedis
    3600 "users" (.str "u1") testDoc testDoc "users:u1" rfl rfl

/-- C4 (code bug): for a multi-field composite key the facade computes
`keyName = Object.keys(key)` — an *array* — and evaluates `key[keyName]`,
which coerces the array to the property name `"id,region"`, finds no such
property, and interpolates `undefined`.  The derived key
`"users:undefined"` is not derived from any field of the key, let alone
exactly one, contradicting the intended single-named-field derivation
(the spec itself flags this indexing as a latent defect). -/
theorem C4_multifield_key_indexes_with_joined_array :
    FnDatabaseAdapter.deriveCacheKey "users" (.obj [("id", .str "u1"), ("region", .str "eu")])
      = some "users:undefined"
    ∧ objIndex [("id", .str "u1"), ("region", .str "eu")] (joinComma ["id", "region"]) = none
    ∧ FnDatabaseAdapter.deriveCacheKey "users" (.obj [("id", .str "u1"), ("region", .str "eu")])
      ≠ some ("users:" ++ (Scalar.str "u1").toJSString)
    ∧ FnDatabaseAdapter.deriveCacheKey "users" (.obj [("id", .str "u1"), ("region", .str "eu")])
      ≠ some ("users:" ++ (Scalar.str "eu").toJSString) := by decide

/-- C5 counterexample.  The claim covers string *and number* scalar keys.
For the number key `42`, `typeof key` is neither `'string'` nor
`'object'`, so no cache key is derived at all (`none`, not
`some "users:42"`), and even with `options.useCache` true and a live
cache entry stored under `"users:42"` the Cache Store is never consulted:
the call goes straight to the backend and issues no cache events. -/
theorem C5_counterexample :
    FnDatabaseAdapter.deriveCacheKey "users" (.num 42) ≠ some "users:42"
    ∧ FnDatabaseAdapter.deriveCacheKey "users" (.num 42) = none
    ∧ (FnDatabaseAdapter.get "firestore" 3600 testImport false false (some testBackend)
        (singletonRedis "users:42" testDoc) "users" (.num 42)
        (some { useCache := some true })).events = []
    ∧ (FnDatabaseAdapter.get "firestore" 3600 testImport false false (some testBackend)
        (singletonRedis "users:42" testDoc) "users" (.num 42)
        (some { useCache := some true })).result = .ok (some testDoc) :=
  ⟨by decide, rfl, rfl, rfl⟩

/-- C5 (amended): for a *string* key the derived cache key is
`"{collection}:{key}"` and a caching read consults the Cache Store under
that key and populates it there; for a *number* key no cache key is
derived and the cache is neither consulted nor populated — the read goes
straight to the Storage Backend. -/
theorem C5_string_key_cached_number_key_bypasses {F : Type} (b : Backend F)
    (imp : String → Except Err (Backend F)) (st : RedisState)
    (collection k : String) (n : Int) (d : Document)
    (hmiss : st (collection ++ ":" ++ k) = none)
    (hgets : b.get collection (.str k) = .ok (some d))
    (hgetn : b.get collection (.num n) = .ok (some d)) :
    FnDatabaseAdapter.deriveCacheKey collection (.str k) = some (collection ++ ":" ++ k)
    ∧ (FnDatabaseAdapter.get "firestore" 3600 imp false false (some b) st collection
        (.str k) (some { useCache := some true, cacheExpiry := some 60 })).events
      = [.read (collection ++ ":" ++ k), .write (collection ++ ":" ++ k) (some d) (some 60)]
    ∧ (FnDatabaseAdapter.get "firestore" 3600 imp false false (some b) st collection
        (.str k) (some { useCache := some true, cacheExpiry := some 60 })).redis
        (collection ++ ":" ++ k)
      = some (some d, some 60)
    ∧ FnDatabaseAdapter.deriveCacheKey collection (.num n) = none
    ∧ (FnDatabaseAdapter.get "firestore" 3600 imp false false (some b) st collection
        (.num n) (some { useCache := some true, cacheExpiry := some 60 })).events = [] := by
  have hne := colon_append_ne_empty collection k
  refine ⟨rfl, ?_, ?_, rfl, ?_⟩ <;>
    simp [FnDatabaseAdapter.get, FnDatabaseAdapter.deriveCacheKey,
      FnDatabaseAdapter.effectiveOptions, FnDatabaseAdapter.getBackendPhase,
      FnDatabaseAdapter.initDb, FnRedisService.get, FnRedisService.set,
      hne, hmiss, hgets, hgetn]

/-- Witness for C5: the amended theorem applied at the concrete fixture. -/
theorem C5_witness :
    FnDatabaseAdapter.deriveCacheKey "users" (.str "u1") = some ("users" ++ ":" ++ "u1")
    ∧ (FnDatabaseAdapter.get "firestore" 3600 testImport false false (some testBackend)
        emptyRedis "users" (.str "u1")
        (some { useCache := some true, cacheExpiry := some 60 })).events
      = [.read ("users" ++ ":" ++ "u1"), .write ("users" ++ ":" ++ "u1") (some testDoc) (some 60)]
    ∧ (FnDatabaseAdapter.get "firestore" 3600 testImport false false (some testBackend)
        emptyRedis "users" (.str "u1")
        (some { useCache := some true, cacheExpiry := some 60 })).redis ("users" ++ ":" ++ "u1")
      = some (some testDoc, some 60)
    ∧ FnDatabaseAdapter.deriveCacheKey "users" (.num 42) = none
    ∧ (FnDatabaseAdapter.get "firestore" 3600 testImport false false (some testBackend)
        emptyRedis "users" (.num 42)
        (some { useCache := some true, cacheExpiry := some 60 })).events = [] :=
  C5_string_key_cached_number_key_bypasses testBackend testImport emptyRedis
    "users" "u1" 42 testDoc rfl rfl rfl

/-- C6 counterexample.  The claim asserts *every* `get` fails when
`DATABASE_TYPE` is unsupported.  But the cache consultation precedes
backend resolution: a `get` with `options.useCache` true whose derived
key has a live Cache Store entry returns the cached document
successfully, never reaching `initialize`. -/
theorem C6_counterexample :
    (FnDatabaseAdapter.get "unsupported-type" 3600 failingImport false false none
        (singletonRedis "users:u1" testDoc) "users" (.str "u1")
        (some { useCache := some true })).result = .ok (some testDoc) := rfl

/-- C6 (amended): with an unsupported `DATABASE_TYPE`, every `set` and
`fetch` call — and every `get` call not served from the cache (here: with
the `options` argument omitted, so `useCache` defaults to false) — fails
with the unsupported-database-type error, and no backend is even
partially constructed: the outcome is the same for *every* module loader
`imp` (so no constructor effect is observable) and `#dbInstance` remains
unset.  The exception: a `get` with `options.useCache` true whose derived
key hits a live cache entry returns that entry successfully. -/
theorem C6_unsupported_type_fails_except_cache_hit {F : Type} (t : String)
    (ht : moduleFor t = none)
    (imp : String → Except Err (Backend F)) (st : RedisState)
    (collection k : String) (q : JSKey) (data : Document) (filters : F) (d : Document)
    (hhit : st (collection ++ ":" ++ k) = some (some d, none)) :
    (FnDatabaseAdapter.set t 3600 imp false none st collection q data).result
      = .error (.unsupportedType t)
    ∧ (FnDatabaseAdapter.set t 3600 imp false none st collection q data).dbInstance = none
    ∧ (FnDatabaseAdapter.fetch t imp none st collection filters).result
      = .error (.unsupportedType t)
    ∧ (FnDatabaseAdapter.fetch t imp none st collection filters).dbInstance = none
    ∧ (FnDatabaseAdapter.get t 3600 imp false false none st collection (.str k) none).result
      = .error (.unsupportedType t)
    ∧ (FnDatabaseAdapter.get t 3600 imp false false none st collection (.str k) none).dbInstance
      = none
    ∧ (FnDatabaseAdapter.get t 3600 imp false false none st collection (.str k)
        (some { useCache := some true })).result = .ok (some d) := by
  have hne := colon_append_ne_empty collection k
  refine ⟨?_, ?_, ?_, ?_, ?_, ?_, ?_⟩ <;>
    simp [FnDatabaseAdapter.set, FnDatabaseAdapter.fetch, FnDatabaseAdapter.get,
      FnDatabaseAdapter.deriveCacheKey, FnDatabaseAdapter.effectiveOptions,
      FnDatabaseAdapter.getBackendPhase, FnDatabaseAdapter.initDb,
      FnRedisService.get, ht, hne, hhit]

/-- Witness for C6: the amended theorem applied at the concrete fixture. -/
theorem C6_witness :
    (FnDatabaseAdapter.set "unsupported-type" 3600 failingImport false none
        (singletonRedis "users:u1" testDoc) "users" (.str "u1") testDoc).result
      = .error (.unsupportedType "unsupported-type")
    ∧ (FnDatabaseAdapter.set "unsupported-type" 3600 failingImport false none
        (singletonRedis "users:u1" testDoc) "users" (.str "u1") testDoc).dbInstance = none
    ∧ (FnDatabaseAdapter.fetch "unsupported-type" failingImport none
        (singletonRedis "users:u1" testDoc) "users" ()).result
      = .error (.unsupportedType "unsupported-type")
    ∧ (FnDatabaseAdapter.fetch "unsupported-type" failingImport none
        (singletonRedis "users:u1" testDoc) "users" ()).dbInstance = none
    ∧ (FnDatabaseAdapter.get "unsupported-type" 3600 failingImport false false none
        (singletonRedis "users:u1" testDoc) "users" (.str "u1") none).result
      = .error (.unsupportedType "unsupported-type")
    ∧ (FnDatabaseAdapter.get "unsupported-type" 3600 failingImport false false none
        (singletonRedis "users:u1" testDoc) "users" (.str "u1") none).dbInstance = none
    ∧ (FnDatabaseAdapter.get "unsupported-type" 3600 failingImport false false none
        (singletonRedis "users:u1" testDoc) "users" (.str "u1")
        (some { useCache := some true })).result = .ok (some testDoc) :=
  C6_unsupported_type_fails_except_cache_hit "unsupported-type" rfl failingImport
    (singletonRedis "users:u1" testDoc) "users" "u1" (.str "u1") testDoc () testDoc rfl

/-- C7 counterexample.  With `DATABASE_TYPE` unset, `config.js` line 7
evaluates to `'firestore'`, which `initialize` resolves to the Firestore
module — not to `'dynamodb'` / the DynamoDB module as the claim states. -/
theorem C7_counterexample :
    config.DATABASE_TYPE_of none = "firestore"
    ∧ config.DATABASE_TYPE_of none ≠ "dynamodb"
    ∧ moduleFor (config.DATABASE_TYPE_of none) = some "../database/GCP/FnFirestore.js"
    ∧ moduleFor (config.DATABASE_TYPE_of none) ≠ some "../database/AWS/FnDynamoDB.js" := by
  decide

/-- C7 (amended): when the `DATABASE_TYPE` environment variable is unset
(or empty, which is falsy), the configured backend type defaults to
`'firestore'`, i.e. the Firestore document-store backend. -/
theorem C7_default_backend_is_firestore :
    config.DATABASE_TYPE_of none = "firestore"
    ∧ config.DATABASE_TYPE_of (some "") = "firestore"
    ∧ moduleFor "firestore" = some "../database/GCP/FnFirestore.js" := by decide

/-- C8 counterexample.  The claim asserts that a `get` whose options omit
`cacheExpiry` — including a caller-supplied `{useCache: true}` — stores
any cache entry it writes with the process-wide default TTL.  At this
concrete input the default-parameter object (which carries
`DEFAULT_CACHE_EXPIRY`) does not apply because an options argument *was*
supplied, so the destructured `cacheExpiry` is `undefined`; `undefined`
is falsy in `redisService.set`, which therefore stores the entry with
*no* expiration (TTL `none`, not the default 3600), so it never expires. -/
theorem C8_counterexample :
    (FnDatabaseAdapter.get "firestore" 3600 testImport false false (some testBackend)
        emptyRedis "users" (.str "u1") (some { useCache := some true })).events
      = [.read "users:u1", .write "users:u1" (some testDoc) none]
    ∧ (FnDatabaseAdapter.get "firestore" 3600 testImport false false (some testBackend)
        emptyRedis "users" (.str "u1") (some { useCache := some true })).redis "users:u1"
      = some (some testDoc, none) := ⟨rfl, rfl⟩

/-- C8 (amended): the process-wide default expiry reaches the cache only
through the default *parameter*, which applies only when the whole
`options` argument is omitted — and then `useCache` also defaults to
false, so no cache entry is written at all.  A caller-supplied options
object that omits `cacheExpiry` (e.g. `{useCache: true}`) destructures
`cacheExpiry` to `undefined`, and any cache entry written by such a call
is stored with no TTL: it never expires, instead of expiring after
`DEFAULT_CACHE_EXPIRY` seconds. -/
theorem C8_omitted_cacheExpiry_stores_without_ttl {F : Type} (b : Backend F)
    (imp : String → Except Err (Backend F)) (st : RedisState) (dce : Int)
    (collection k : String) (d : Document)
    (hmiss : st (collection ++ ":" ++ k) = none)
    (hget : b.get collection (.str k) = .ok (some d)) :
    (FnDatabaseAdapter.get "firestore" dce imp false false (some b) st collection
        (.str k) (some { useCache := some true })).redis (collection ++ ":" ++ k)
      = some (some d, none)
    ∧ (FnDatabaseAdapter.get "firestore" dce imp false false (some b) st collection
        (.str k) (some { useCache := some true })).events
      = [.read (collection ++ ":" ++ k), .write (collection ++ ":" ++ k) (some d) none]
    ∧ (FnDatabaseAdapter.get "firestore" dce imp false false (some b) st collection
        (.str k) none).events = [] := by
  have hne := colon_append_ne_empty collection k
  refine ⟨?_, ?_, ?_⟩ <;>
    simp [FnDatabaseAdapter.get, FnDatabaseAdapter.deriveCacheKey,
      FnDatabaseAdapter.effectiveOptions, FnDatabaseAdapter.getBackendPhase,
      FnDatabaseAdapter.initDb, FnRedisService.get, FnRedisService.set,
      hne, hmiss, hget]

/-- Witness for C8: the amended theorem applied at the concrete fixture. -/
theorem C8_witness :
    (FnDatabaseAdapter.get "firestore" 3600 testImport false false (some testBackend)
        emptyRedis "users" (.str "u1") (some { useCache := some true })).redis
        ("users" ++ ":" ++ "u1")
      = some (some testDoc, none)
    ∧ (FnDatabaseAdapter.get "firestore" 3600 testImport false false (some testBackend)
        emptyRedis "users" (.str "u1") (some { useCache := some true })).events
      = [.read ("users" ++ ":" ++ "u1"), .write ("users" ++ ":" ++ "u1") (some testDoc) none]
    ∧ (FnDatabaseAdapter.get "firestore" 3600 testImport false false (some testBackend)
        emptyRedis "users" (.str "u1") none).events = [] :=
  C8_omitted_cacheExpiry_stores_without_ttl testBackend testImport emptyRedis 3600
    "users" "u1" testDoc rfl rfl

/-- C9 (confirmed): once the Backend Selector resolves a backend,
`fetch(collection, filters)` forwards the opaque `filters` value
unchanged to the backend's `fetch` and returns exactly the backend's
result — whatever it is, including an error or an empty list — while
issuing no Cache Store call and leaving the cache state untouched.  The
filter type `F` is abstract, so the facade cannot inspect or rewrite the
filters. -/
theorem C9_fetch_is_pure_passthrough {F : Type} (t : String)
    (imp : String → Except Err (Backend F)) (inst : Option (Backend F))
    (st : RedisState) (collection : String) (filters : F)
    (b : Backend F) (ms : List String)
    (hinit : FnDatabaseAdapter.initDb t imp inst = .ok (b, ms)) :
    (FnDatabaseAdapter.fetch t imp inst st collection filters).result
      = b.fetch collection filters
    ∧ (FnDatabaseAdapter.fetch t imp inst st collection filters).events = []
    ∧ (FnDatabaseAdapter.fetch t imp inst st collection filters).redis = st := by
  refine ⟨?_, ?_, ?_⟩ <;> simp [FnDatabaseAdapter.fetch, hinit]

/-- Witness for C9: the theorem applied with a resolved backend; the
backend here finds one document, and the forwarded result is exactly its
list. -/
theorem C9_witness :
    (FnDatabaseAdapter.fetch "firestore" testImport (some testBackend) emptyRedis
        "orders" ()).result = testBackend.fetch "orders" ()
    ∧ (FnDatabaseAdapter.fetch "firestore" testImport (some testBackend) emptyRedis
        "orders" ()).events = []
    ∧ (FnDatabaseAdapter.fetch "firestore" testImport (some testBackend) emptyRedis
        "orders" ()).redis = emptyRedis :=
  C9_fetch_is_pure_passthrough "firestore" testImport (some testBackend) emptyRedis
    "orders" () testBackend [] rfl

/-- C10 counterexample.  The claim asserts that evaluating the FnCache
module always throws a *ReferenceError from the unbound `FnRedis`*.
Under standard ES-module semantics the failure comes earlier and is a
different error: `import fnConfig from './config.js'` requests a default
export that config.js does not provide, so linking fails before any
statement of FnCache.js (including `FnCache.getInstance()`) runs, and the
unbound-`FnRedis` assignment is never reached. -/
theorem C10_counterexample :
    FnCacheModule.moduleEvalStrict
      = .error (.missingDefaultExport "./config.js")
    ∧ FnCacheModule.moduleEvalStrict
      ≠ .error (.referenceError "FnRedis") :=
  ⟨rfl, fun h => by injection h with h2; exact FnCacheModule.ModErr.noConfusion h2⟩

/-- C10 (amended): importing the library entry point always throws and
`FnCache.getInstance` never yields a usable instance, but the error
depends on the loader: under standard ES-module linking the failure is
the missing default export of config.js, raised before the module body
runs; under a lenient loader that resolves the default import to the
exports namespace object, module evaluation does reach
`FnCache.getInstance()`, whose constructor executes
`FnRedis.instance = this` with `FnRedis` unbound and throws the claimed
ReferenceError. -/
theorem C10_entry_module_always_throws :
    FnCacheModule.moduleEvalStrict
      = .error (.missingDefaultExport "./config.js")
    ∧ FnCacheModule.moduleEvalLenient
      = .error (.referenceError "FnRedis") := ⟨rfl, rfl⟩
